import Mathlib

/-!
Shallow embedding of the quiz/certificate flow and the site configuration of
the MCP practitioner guide site, together with theorems about them.

Sources embedded:
- src/src/pages/quiz.tsx (quiz page: selection, completion handler, render)
- the Certificate component (certificate props and download handler)
- docusaurus.config.ts (onBrokenLinks, sitemap createSitemapItems)
-/

namespace MCPQuiz

/-- The three quiz choices offered by the quiz page (`type QuizType`). -/
inductive QuizType
  | starter
  | po
  | full
deriving DecidableEq, Repr

/-- The completion result object delivered by the third-party quiz widget to
`handleQuizComplete`.  Numeric fields are modelled as `Option Nat`: `none`
stands for a JavaScript `undefined` field (so that `undefined` and
`undefined * 10 = NaN` are falsy), `some 0` for the falsy number 0.
`userInput` stands for the rest of the payload that the page never reads. -/
structure QuizResult where
  numberOfQuestions : Option Nat
  correctPoints : Option Nat
  totalPoints : Option Nat
  correctAnswers : Option Nat
  userInput : List Nat
deriving DecidableEq, Repr

/-- JavaScript `a || b` on optional numbers: a falsy left operand
(`undefined`/`NaN`, modelled `none`, or the number 0) yields `b`. -/
def jsOr (a b : Option Nat) : Option Nat :=
  match a with
  | some n => if n = 0 then b else some n
  | none => b

/-- `result.totalPoints || (result.numberOfQuestions * 10) || 100` from
`handleQuizComplete`; `numberOfQuestions * 10` is `NaN` (falsy, `none`) when
the field is absent. -/
def effTotal (r : QuizResult) : Option Nat :=
  jsOr r.totalPoints (jsOr (r.numberOfQuestions.map (fun n => n * 10)) (some 100))

/-- `result.correctPoints || result.correctPoints || 0` from
`handleQuizComplete` (the source repeats the same operand). -/
def userPoints (r : QuizResult) : Option Nat :=
  jsOr r.correctPoints (jsOr r.correctPoints (some 0))

/-- `const passed = userPoints / totalPoints >= 0.7` from
`handleQuizComplete`, with exact rational division in place of JavaScript
float division.  Both fallback chains end in a numeric literal, so the
wildcard row is unreachable. -/
def passed (r : QuizResult) : Bool :=
  match userPoints r, effTotal r with
  | some u, some t => decide ((7 : ℚ) / 10 ≤ (u : ℚ) / (t : ℚ))
  | _, _ => false

/-- A quiz data object.  In the source all three of `starterQuiz`, `poQuiz`
and `fullsetQuiz` are the empty object `{}`, so their `quizTitle` field is
absent (`none`). -/
structure QuizData where
  quizTitle : Option String
deriving DecidableEq, Repr

/-- `const starterQuiz = {}`. -/
def starterQuiz : QuizData := { quizTitle := none }

/-- `const poQuiz = {}`. -/
def poQuiz : QuizData := { quizTitle := none }

/-- `const fullsetQuiz = {}`. -/
def fullsetQuiz : QuizData := { quizTitle := none }

/-- The `quizData` branch of the `if`-chain on `selectedQuiz` in `Home`. -/
def quizDataFor : QuizType → QuizData
  | .starter => starterQuiz
  | .po => poQuiz
  | .full => fullsetQuiz

/-- The `quizDuration` branch of the `if`-chain on `selectedQuiz` in `Home`;
`none` when no quiz is selected (the variable stays `undefined`). -/
def quizDurationFor : Option QuizType → Option Nat
  | some .starter => some (3600 / 2)
  | some .po => some 3600
  | some .full => some (3600 * 2)
  | none => none

/-- The local component state of the quiz page `Home`:
`useState` hooks `selectedQuiz`, `quizResult`, `showCertificate`. -/
structure PageState where
  selectedQuiz : Option QuizType
  quizResult : Option QuizResult
  showCertificate : Bool
deriving DecidableEq, Repr

/-- The initial state of the three `useState` hooks:
`useState(null)`, `useState(null)`, `useState(false)`. -/
def initState : PageState :=
  { selectedQuiz := none, quizResult := none, showCertificate := false }

/-- The UI events the quiz page reacts to: picking a quiz in the header,
the widget reporting completion, and the back-to-menu button. -/
inductive QuizEvent
  | select (q : QuizType)
  | complete (r : QuizResult)
  | back

/-- One UI transition of the quiz page.  Each event is guarded by the render
condition of the element that fires it: the header (and its select buttons)
renders only when `selectedQuiz === null`; the quiz widget and the back
button render only inside the `selectedQuiz !== null && quizData` block.
`select` runs `setSelectedQuiz`; `complete` runs `handleQuizComplete`
(`setQuizResult(result)` then `setShowCertificate(passed)`); `back` runs the
button's `onClick` (`setQuizResult(null)`, `setShowCertificate(false)`,
`setSelectedQuiz(null)`). -/
def pageStep (s : PageState) : QuizEvent → Option PageState
  | .select q =>
      if s.selectedQuiz.isNone then
        some { s with selectedQuiz := some q }
      else none
  | .complete r =>
      if s.selectedQuiz.isSome then
        some { s with quizResult := some r, showCertificate := passed r }
      else none
  | .back =>
      if s.selectedQuiz.isSome then
        some { selectedQuiz := none, quizResult := none, showCertificate := false }
      else none

/-- States of the quiz page reachable from the initial render. -/
inductive Reachable : PageState → Prop
  | init : Reachable initState
  | step (s : PageState) (e : QuizEvent) (s' : PageState) :
      Reachable s → pageStep s e = some s' → Reachable s'

/-- The props of the `Certificate` component (`CertificateProps`), with
`quizTitle` as `Option String` because the page passes `quizData.quizTitle`,
a field the empty quiz objects do not define. -/
structure CertificateProps where
  userName : String
  date : String
  quizTitle : Option String
  score : Nat
  total : Nat
deriving DecidableEq, Repr

/-- `quizResult.correctPoints || quizResult.correctAnswers || 0`: the
`score` prop of the rendered certificate. -/
def certScore (r : QuizResult) : Nat :=
  (jsOr r.correctPoints (jsOr r.correctAnswers (some 0))).getD 0

/-- `quizResult.totalPoints || (quizResult.numberOfQuestions * 10) || 100`:
the `total` prop of the rendered certificate. -/
def certTotal (r : QuizResult) : Nat :=
  (effTotal r).getD 100

/-- Whether the quiz widget block is rendered:
`selectedQuiz !== null && quizData` (every selected quiz's data object is a
truthy `{}`). -/
def widgetRendered (s : PageState) : Bool :=
  s.selectedQuiz.isSome

/-- The `Certificate` element rendered by the quiz page, if any:
inside the widget block, `showCertificate && quizResult && <Certificate ...>`
with `userName=""`, the current date, `quizData.quizTitle`, and the
score/total fallback chains.  `today` stands for
`new Date().toLocaleDateString()`. -/
def certProps (s : PageState) (today : String) : Option CertificateProps :=
  match s.selectedQuiz with
  | none => none
  | some q =>
      if s.showCertificate then
        match s.quizResult with
        | some r =>
            some { userName := ""
                   date := today
                   quizTitle := (quizDataFor q).quizTitle
                   score := certScore r
                   total := certTotal r }
        | none => none
      else none

/-- Whether a certificate is rendered in state `s`. -/
def certRendered (s : PageState) : Bool :=
  widgetRendered s && (s.showCertificate && s.quizResult.isSome)

/-- A concrete passing completion result: 70 of 100 points. -/
def rPass : QuizResult := ⟨some 10, some 70, some 100, none, []⟩

/-- The page state after selecting the starter quiz and completing it with
`rPass`. -/
def sPass : PageState := ⟨some .starter, some rPass, true⟩

/-- The character class of the JavaScript regex `\s`, as matched by
`userName.replace(/\s/g, "_")` in `handleDownload`. -/
def jsWhitespaceChars : List Char :=
  [' ', '\t', '\n', '\r', '\u000B', '\u000C', ' ', ' ',
   ' ', ' ', ' ', ' ', ' ', ' ', ' ',
   ' ', ' ', ' ', ' ', ' ', ' ', ' ',
   ' ', '　', '﻿']

/-- Whether `\s` matches the character `c`. -/
def jsWhitespace (c : Char) : Bool :=
  jsWhitespaceChars.contains c

/-- `userName.replace(/\s/g, "_")`: each whitespace character of the string
becomes an underscore. -/
def replaceWsUnderscore (s : String) : String :=
  String.mk (s.toList.map (fun c => if jsWhitespace c then '_' else c))

/-- The local state of the `Certificate` component: its props plus the
`userNameInput` hook (`useState(userName)`, then whatever the user types). -/
structure CertState where
  props : CertificateProps
  userNameInput : String
deriving DecidableEq, Repr

/-- The filename `handleDownload` gives the exported image:
`certificate-` followed by `userName.replace(/\s/g, "_")` and `.png`.
It closes over the `userName` prop only, never over `userNameInput`. -/
def downloadFilename (cs : CertState) : String :=
  "certificate-" ++ replaceWsUnderscore cs.props.userName ++ ".png"

end MCPQuiz

namespace MCPSite

/-- Possible values of the Docusaurus broken-link options. -/
inductive BrokenLinkBehavior
  | ignore
  | log
  | warn
  | throw
deriving DecidableEq, Repr

/-- Modelled from the spec: the framework fails ("throws" out of) the build
when a broken-link option is set to the value `throw`; the framework itself
is outside this repository, which only sets the configuration value. -/
def failsBuild : BrokenLinkBehavior → Bool
  | .throw => true
  | _ => false

/-- The `sitemap` options object of the classic preset in
docusaurus.config.ts. -/
structure SitemapOptions where
  lastmod : String
  changefreq : String
  priority : ℚ
  ignorePatterns : List String
  filename : String
deriving DecidableEq, Repr

/-- The fields of the site `config` object embedded here. -/
structure SiteConfig where
  title : String
  url : String
  baseUrl : String
  organizationName : String
  projectName : String
  onBrokenLinks : BrokenLinkBehavior
  onBrokenMarkdownLinks : BrokenLinkBehavior
  sitemap : SitemapOptions
deriving DecidableEq, Repr

/-- The `config` constant of docusaurus.config.ts (the embedded fields). -/
def config : SiteConfig :=
  { title := "✨ Welcome to MCP Practitioner Guide 📘"
    url := "https://mcp.practitioner.help/"
    baseUrl := "/"
    organizationName := "Slash"
    projectName := "mcp-practitioner"
    onBrokenLinks := .throw
    onBrokenMarkdownLinks := .warn
    sitemap :=
      { lastmod := "date"
        changefreq := "weekly"
        priority := 1 / 2
        ignorePatterns := ["/tags/**"]
        filename := "sitemap.xml" } }

/-- An entry of the generated sitemap; the filter reads only `url`. -/
structure SitemapItem where
  url : String
  lastmod : Option String
deriving DecidableEq, Repr

/-- JavaScript `s.includes(pat)`: substring containment. -/
def strIncludes (s pat : String) : Bool :=
  decide (pat.toList <:+: s.toList)

/-- `createSitemapItems` from docusaurus.config.ts: take the framework's
default items and keep those whose URL does not contain "/page/". -/
def createSitemapItems (defaultItems : List SitemapItem) : List SitemapItem :=
  defaultItems.filter (fun item => !(strIncludes item.url "/page/"))

end MCPSite

namespace MCPQuiz

lemma userPoints_eq (r : QuizResult) :
    userPoints r = some (r.correctPoints.getD 0) := by
  rcases r with ⟨nq, cp, tp, ca, ui⟩
  rcases cp with _ | n
  · rfl
  · by_cases hn : n = 0 <;> simp [userPoints, jsOr, hn]

lemma effTotal_pos (r : QuizResult) :
    ∃ t, effTotal r = some t ∧ 0 < t := by
  rcases r with ⟨nq, cp, tp, ca, ui⟩
  rcases tp with _ | n
  · rcases nq with _ | m
    · exact ⟨100, rfl, by norm_num⟩
    · by_cases hm : m = 0
      · exact ⟨100, by simp [effTotal, jsOr, hm], by norm_num⟩
      · refine ⟨m * 10, by simp [effTotal, jsOr, hm], ?_⟩
        exact Nat.mul_pos (Nat.pos_of_ne_zero hm) (by norm_num)
  · by_cases hn : n = 0
    · rcases nq with _ | m
      · exact ⟨100, by simp [effTotal, jsOr, hn], by norm_num⟩
      · by_cases hm : m = 0
        · exact ⟨100, by simp [effTotal, jsOr, hn, hm], by norm_num⟩
        · refine ⟨m * 10, by simp [effTotal, jsOr, hn, hm], ?_⟩
          exact Nat.mul_pos (Nat.pos_of_ne_zero hm) (by norm_num)
    · exact ⟨n, by simp [effTotal, jsOr, hn], Nat.pos_of_ne_zero hn⟩

lemma passed_correctPoints (r : QuizResult) (h : passed r = true) :
    ∃ u, r.correctPoints = some u ∧ 0 < u := by
  obtain ⟨t, ht, htpos⟩ := effTotal_pos r
  rw [passed, userPoints_eq, ht] at h
  rcases hcp : r.correctPoints with _ | u
  · exfalso
    rw [hcp] at h
    simp only [Option.getD_none, Nat.cast_zero, zero_div, decide_eq_true_eq] at h
    norm_num at h
  · refine ⟨u, rfl, ?_⟩
    by_contra hu
    push_neg at hu
    interval_cases u
    rw [hcp] at h
    simp only [Option.getD_some, Nat.cast_zero, zero_div, decide_eq_true_eq] at h
    norm_num at h

lemma certScore_of_passed (r : QuizResult) (h : passed r = true) :
    r.correctPoints = some (certScore r) ∧ 0 < certScore r := by
  obtain ⟨u, hcp, hu⟩ := passed_correctPoints r h
  have hcs : certScore r = u := by
    simp [certScore, jsOr, hcp, hu.ne']
  exact ⟨by rw [hcs, hcp], by rw [hcs]; exact hu⟩

lemma showCert_sound (s : PageState) (h : Reachable s) :
    s.showCertificate = true → ∃ r, s.quizResult = some r ∧ passed r = true := by
  induction h with
  | init => intro hs; exact absurd hs (by simp [initState])
  | step s e s' _ hstep ih =>
      intro hs
      cases e with
      | select q =>
          rw [pageStep] at hstep
          split at hstep
          · cases hstep
            exact ih hs
          · cases hstep
      | complete r =>
          rw [pageStep] at hstep
          split at hstep
          · cases hstep
            exact ⟨r, rfl, hs⟩
          · cases hstep
      | back =>
          rw [pageStep] at hstep
          split at hstep
          · cases hstep
            exact absurd hs (by simp)
          · cases hstep

lemma rPass_passed : passed rPass = true := by
  have h1 : userPoints rPass = some 70 := rfl
  have h2 : effTotal rPass = some 100 := rfl
  rw [passed, h1, h2]
  simp only [decide_eq_true_eq]
  norm_num

lemma sPass_reachable : Reachable sPass :=
  Reachable.step ⟨some .starter, none, false⟩ (.complete rPass) sPass
    (Reachable.step initState (.select .starter) ⟨some .starter, none, false⟩
      Reachable.init rfl)
    (by simp [pageStep, sPass, rPass_passed])

lemma certProps_some (s : PageState) (today : String) (p : CertificateProps)
    (hp : certProps s today = some p) :
    s.showCertificate = true ∧ ∃ q r, s.selectedQuiz = some q ∧ s.quizResult = some r ∧
      p = { userName := "", date := today, quizTitle := (quizDataFor q).quizTitle,
            score := certScore r, total := certTotal r } := by
  rcases hsel : s.selectedQuiz with _ | q
  · rw [certProps, hsel] at hp
    cases hp
  · rw [certProps, hsel] at hp
    rcases hsc : s.showCertificate with _ | _
    · rw [hsc] at hp
      simp at hp
    · rw [hsc] at hp
      rcases hres : s.quizResult with _ | r
      · rw [hres] at hp
        simp at hp
      · rw [hres] at hp
        have hp2 : some (CertificateProps.mk "" today ((quizDataFor q).quizTitle)
            (certScore r) (certTotal r)) = some p := hp
        exact ⟨rfl, q, r, rfl, rfl, (Option.some.inj hp2).symm⟩

/-- C1: For a completion result whose effective total (totalPoints, falling
back to numberOfQuestions * 10 and then 100) is the positive number `t`, the
quiz is marked passed exactly when the score (correctPoints, falling back
to 0) divided by `t` is at least 0.7. -/
theorem pass_iff_seventy_percent (r : QuizResult) (t : Nat)
    (ht : effTotal r = some t) (hpos : 0 < t) :
    passed r = true ↔ (7 : ℚ) / 10 ≤ ((r.correctPoints.getD 0 : Nat) : ℚ) / (t : ℚ) := by
  clear hpos
  rw [passed, userPoints_eq, ht]
  simp

/-- Witness for `pass_iff_seventy_percent` at a concrete passing result. -/
theorem pass_iff_seventy_percent_witness :
    passed ⟨some 10, some 70, some 100, none, []⟩ = true ↔
      (7 : ℚ) / 10 ≤ (((QuizResult.mk (some 10) (some 70) (some 100) none []).correctPoints.getD 0 : Nat) : ℚ) / ((100 : Nat) : ℚ) :=
  pass_iff_seventy_percent ⟨some 10, some 70, some 100, none, []⟩ 100 (by decide) (by decide)

/-- C2: In every reachable state of the quiz page, a certificate is rendered
only if a completion result is recorded and it met the 70% threshold
(`showCertificate` is true); with no recorded result, or only a failing one,
no certificate is rendered. -/
theorem cert_only_after_passing (s : PageState) (h : Reachable s) :
    (certRendered s = true →
      s.showCertificate = true ∧ ∃ r, s.quizResult = some r ∧ passed r = true) ∧
    (∀ r, s.quizResult = some r → passed r = false → certRendered s = false) := by
  constructor
  · intro hc
    have hs : s.showCertificate = true := by
      rw [certRendered] at hc
      exact (Bool.and_eq_true_iff.mp (Bool.and_eq_true_iff.mp hc).2).1
    exact ⟨hs, showCert_sound s h hs⟩
  · intro r hr hpf
    by_contra hc
    rw [Bool.not_eq_false, certRendered] at hc
    have hs : s.showCertificate = true :=
      (Bool.and_eq_true_iff.mp (Bool.and_eq_true_iff.mp hc).2).1
    obtain ⟨r0, hr0, hpass⟩ := showCert_sound s h hs
    rw [hr] at hr0
    cases Option.some.inj hr0
    rw [hpass] at hpf
    cases hpf

/-- Witness for `cert_only_after_passing` at the reachable state `sPass`. -/
theorem cert_only_after_passing_witness :
    (certRendered sPass = true →
      sPass.showCertificate = true ∧ ∃ r, sPass.quizResult = some r ∧ passed r = true) ∧
    (∀ r, sPass.quizResult = some r → passed r = false → certRendered sPass = false) :=
  cert_only_after_passing sPass sPass_reachable

/-- C3: When the quiz page renders a certificate, its score prop is the quiz
result's correctPoints, its total prop is the effective total used in the
pass/fail computation, its title prop is the selected quiz data's quizTitle,
and its date prop is the current date string. -/
theorem cert_props_from_result (s : PageState) (today : String) (p : CertificateProps)
    (h : Reachable s) (hp : certProps s today = some p) :
    ∃ q r, s.selectedQuiz = some q ∧ s.quizResult = some r ∧
      r.correctPoints = some p.score ∧ effTotal r = some p.total ∧
      p.quizTitle = (quizDataFor q).quizTitle ∧ p.date = today := by
  obtain ⟨hsc, q, r, hsel, hres, hpeq⟩ := certProps_some s today p hp
  obtain ⟨r0, hr0, hpass⟩ := showCert_sound s h hsc
  rw [hres] at hr0
  cases Option.some.inj hr0
  subst hpeq
  obtain ⟨hcp, hpos⟩ := certScore_of_passed r hpass
  refine ⟨q, r, hsel, hres, hcp, ?_, rfl, rfl⟩
  obtain ⟨t, ht, -⟩ := effTotal_pos r
  have hct : certTotal r = t := by simp [certTotal, ht]
  show effTotal r = some (certTotal r)
  rw [hct, ht]

/-- Witness for `cert_props_from_result` at the reachable state `sPass`. -/
theorem cert_props_from_result_witness :
    ∃ q r, sPass.selectedQuiz = some q ∧ sPass.quizResult = some r ∧
      r.correctPoints = some (CertificateProps.mk "" "1/1/2026" none 70 100).score ∧
      effTotal r = some (CertificateProps.mk "" "1/1/2026" none 70 100).total ∧
      (CertificateProps.mk "" "1/1/2026" none 70 100).quizTitle = (quizDataFor q).quizTitle ∧
      (CertificateProps.mk "" "1/1/2026" none 70 100).date = "1/1/2026" :=
  cert_props_from_result sPass "1/1/2026" ⟨"", "1/1/2026", none, 70, 100⟩
    sPass_reachable (by decide)

/-- C4: Two completion results that agree on numberOfQuestions,
correctPoints and totalPoints get the same pass/fail decision, the same
total prop, and, whenever the certificate is rendered (the decision is
pass), the same score prop — the remaining fields of the result cannot
influence the observable outcome. -/
theorem outcome_depends_on_three_fields (r1 r2 : QuizResult)
    (hq : r1.numberOfQuestions = r2.numberOfQuestions)
    (hc : r1.correctPoints = r2.correctPoints)
    (ht : r1.totalPoints = r2.totalPoints) :
    passed r1 = passed r2 ∧ certTotal r1 = certTotal r2 ∧
      (passed r1 = true → certScore r1 = certScore r2) := by
  have htot : effTotal r1 = effTotal r2 := by
    simp only [effTotal, hq, ht]
  have hup : userPoints r1 = userPoints r2 := by
    simp only [userPoints, hc]
  refine ⟨?_, ?_, ?_⟩
  · simp only [passed, htot, hup]
  · simp only [certTotal, htot]
  · intro hp
    obtain ⟨u, hcp1, hu⟩ := passed_correctPoints r1 hp
    have hcp2 : r2.correctPoints = some u := hc ▸ hcp1
    simp [certScore, jsOr, hcp1, hcp2, hu.ne']

/-- Witness for `outcome_depends_on_three_fields` on two results that differ
in correctAnswers and userInput only. -/
theorem outcome_depends_on_three_fields_witness :
    passed ⟨some 10, some 70, some 100, some 5, [1, 2]⟩ = passed rPass ∧
      certTotal ⟨some 10, some 70, some 100, some 5, [1, 2]⟩ = certTotal rPass ∧
      (passed ⟨some 10, some 70, some 100, some 5, [1, 2]⟩ = true →
        certScore ⟨some 10, some 70, some 100, some 5, [1, 2]⟩ = certScore rPass) :=
  outcome_depends_on_three_fields ⟨some 10, some 70, some 100, some 5, [1, 2]⟩ rPass
    rfl rfl rfl

/-- C5: The back-to-menu button resets the page to the initial state — quiz
result null, showCertificate false, selectedQuiz null — after which neither
the quiz widget nor a certificate is rendered. -/
theorem back_clears_state (s s' : PageState) (h : pageStep s .back = some s') :
    s' = initState ∧ s'.quizResult = none ∧ s'.showCertificate = false ∧
      s'.selectedQuiz = none ∧ widgetRendered s' = false ∧ certRendered s' = false := by
  rw [pageStep] at h
  split at h
  · cases Option.some.inj h
    exact ⟨rfl, rfl, rfl, rfl, rfl, rfl⟩
  · cases h

/-- Witness for `back_clears_state` from the state `sPass`. -/
theorem back_clears_state_witness :
    initState = initState ∧ initState.quizResult = none ∧
      initState.showCertificate = false ∧ initState.selectedQuiz = none ∧
      widgetRendered initState = false ∧ certRendered initState = false :=
  back_clears_state sPass initState rfl

/-- C8: Whenever a reachable page state renders a certificate, the displayed
score is exactly the result's correctPoints and is nonzero, and changing the
result's correctAnswers field cannot change the score prop: the fallback to
correctAnswers never takes effect. -/
theorem cert_score_never_falls_back (s : PageState) (today : String)
    (p : CertificateProps) (r : QuizResult)
    (h : Reachable s) (hp : certProps s today = some p) (hr : s.quizResult = some r) :
    r.correctPoints = some p.score ∧ p.score ≠ 0 ∧
      ∀ ca, certScore { r with correctAnswers := ca } = certScore r := by
  obtain ⟨hsc, q, r0, hsel, hres, hpeq⟩ := certProps_some s today p hp
  rw [hr] at hres
  cases Option.some.inj hres
  obtain ⟨r1, hr1, hpass⟩ := showCert_sound s h hsc
  rw [hr] at hr1
  cases Option.some.inj hr1
  subst hpeq
  obtain ⟨hcp, hpos⟩ := certScore_of_passed r hpass
  obtain ⟨u, hcpu, hu⟩ := passed_correctPoints r hpass
  refine ⟨hcp, hpos.ne', ?_⟩
  intro ca
  simp [certScore, jsOr, hcpu, hu.ne']

/-- Witness for `cert_score_never_falls_back` at the reachable state
`sPass`. -/
theorem cert_score_never_falls_back_witness :
    rPass.correctPoints = some (CertificateProps.mk "" "2/2/2026" none 70 100).score ∧
      (CertificateProps.mk "" "2/2/2026" none 70 100).score ≠ 0 ∧
      ∀ ca, certScore { rPass with correctAnswers := ca } = certScore rPass :=
  cert_score_never_falls_back sPass "2/2/2026" ⟨"", "2/2/2026", none, 70, 100⟩ rPass
    sPass_reachable (by decide) rfl

/-- C9: The download filename is derived from the userName prop (whitespace
replaced by underscores), not from the typed-in name; since the quiz page
always passes userName = "", every certificate downloaded from the quiz page
is named "certificate-.png" whatever name was entered in the input field. -/
theorem download_filename_ignores_input (s : PageState) (today : String)
    (p : CertificateProps) (typed : String)
    (hp : certProps s today = some p) :
    downloadFilename { props := p, userNameInput := typed } = "certificate-.png" ∧
      ∀ typed2, downloadFilename { props := p, userNameInput := typed2 } =
        downloadFilename { props := p, userNameInput := typed } := by
  obtain ⟨hsc, q, r, hsel, hres, hpeq⟩ := certProps_some s today p hp
  subst hpeq
  refine ⟨?_, fun _ => rfl⟩
  show "certificate-" ++ replaceWsUnderscore "" ++ ".png" = "certificate-.png"
  decide

/-- Witness for `download_filename_ignores_input` at the state `sPass` with
a typed name. -/
theorem download_filename_ignores_input_witness :
    downloadFilename
        { props := CertificateProps.mk "" "1/2/2026" none 70 100,
          userNameInput := "Ada Lovelace" } = "certificate-.png" ∧
      ∀ typed2, downloadFilename
          { props := CertificateProps.mk "" "1/2/2026" none 70 100,
            userNameInput := typed2 } =
        downloadFilename
          { props := CertificateProps.mk "" "1/2/2026" none 70 100,
            userNameInput := "Ada Lovelace" } :=
  download_filename_ignores_input sPass "1/2/2026" ⟨"", "1/2/2026", none, 70, 100⟩
    "Ada Lovelace" (by decide)

/-- C10: Each quiz selection fixes the timer duration: starter 1800 seconds
(3600/2), po 3600 seconds, full 7200 seconds (3600*2); the duration is a
total function of the selected quiz type alone. -/
theorem quiz_durations (q : QuizType) :
    quizDurationFor (some .starter) = some 1800 ∧
    quizDurationFor (some .po) = some 3600 ∧
    quizDurationFor (some .full) = some 7200 ∧
    ∃ d, quizDurationFor (some q) = some d := by
  refine ⟨rfl, rfl, rfl, ?_⟩
  cases q
  · exact ⟨1800, rfl⟩
  · exact ⟨3600, rfl⟩
  · exact ⟨7200, rfl⟩

end MCPQuiz

namespace MCPSite

/-- C6: The site configuration sets onBrokenLinks to "throw", the
build-failing behavior, so broken links fail every build of the site. -/
theorem broken_links_fail_build :
    config.onBrokenLinks = BrokenLinkBehavior.throw ∧
      failsBuild config.onBrokenLinks = true :=
  ⟨rfl, rfl⟩

/-- C7: The sitemap (written to "sitemap.xml") is the framework's default
item list filtered: every item whose URL contains "/page/" is removed, every
other item is kept, and the kept items stay in their original relative order
(the output is a sublist of the default list). -/
theorem sitemap_filters_page_urls (defaultItems : List SitemapItem) :
    List.Sublist (createSitemapItems defaultItems) defaultItems ∧
      (∀ item, item ∈ createSitemapItems defaultItems ↔
        item ∈ defaultItems ∧ strIncludes item.url "/page/" = false) ∧
      config.sitemap.filename = "sitemap.xml" := by
  refine ⟨List.filter_sublist _, ?_, rfl⟩
  intro item
  rw [createSitemapItems, List.mem_filter]
  simp [Bool.not_eq_true']

end MCPSite
